import Mathlib

/-!
Verification development for the poem-generation repository
(`falcon.py`, `streamlit_app.py`).

The repository's decision core is a multi-target text-generation client:
`call_router` / `robust_generate` in `falcon.py` (router variant with
cascading (model, provider) fallback) and `hf_generate_via_endpoint` plus an
inline endpoint call in `streamlit_app.py` (dedicated-endpoint variant).

We embed that core shallowly:
* decoded JSON payloads become the inductive `Json`;
* the outcome of one `requests.post` call (the environment's behaviour)
  becomes `HttpOutcome`: a 2xx response with a decoded body, a raised
  `requests.HTTPError` with status and body text, a raised
  `requests.Timeout`, or any other raised exception (this last case also
  covers a 2xx body that `resp.json()` fails to decode);
* Python floats are modelled as rationals — the code only stores and
  forwards them, it never computes with them;
* Python truthiness of optional strings and of JSON values is modelled
  explicitly (`pyTruthyStr`, `pyTruthyJson`).
-/

namespace Poemas

/-- A decoded JSON value, as produced by `resp.json()`.  `null` is Python's
`None`; numbers are modelled as rationals. -/
inductive Json where
  | str : String → Json
  | num : ℚ → Json
  | bool : Bool → Json
  | null : Json
  | arr : List Json → Json
  | obj : List (String × Json) → Json

/-- Key lookup in a decoded JSON object: models both `k in d` (presence) and
`d[k]` / `d.get(k)` (value; `none` when the key is absent).  Decoded Python
dicts have no duplicate keys, so first-match lookup is exact. -/
def jsonGet (kvs : List (String × Json)) (k : String) : Option Json :=
  match kvs with
  | [] => none
  | (k2, v) :: rest => if k2 == k then some v else jsonGet rest k

/-- Python truthiness of an `Optional[str]`: `None` and `""` are falsy. -/
def pyTruthyStr : Option String → Bool
  | none => false
  | some s => s != ""

/-- Python `str()` of an `Optional[str]` as interpolated by an f-string:
`None` prints as `None`, a string prints verbatim. -/
def pyStrOpt : Option String → String
  | none => "None"
  | some s => s

/-- Python string slicing `s[:n]` (Python slices by code point, i.e. by
character). -/
def strTake (s : String) (n : Nat) : String := ⟨s.data.take n⟩

/-- Python truthiness of a decoded JSON value: `""`, `0`, `False`, `None`,
`[]` and `{}` are falsy. -/
def pyTruthyJson : Json → Bool
  | .str s => s != ""
  | .num q => q != 0
  | .bool b => b
  | .null => false
  | .arr l => !l.isEmpty
  | .obj l => !l.isEmpty

mutual

/-- Python `str()` of a decoded JSON value (used for the
`str(data)[:400]` fragments of the diagnostic messages). -/
def pyRepr : Json → String
  | .str s => "\x27" ++ s ++ "\x27"
  | .num q => toString q
  | .bool b => if b then "True" else "False"
  | .null => "None"
  | .arr xs => "[" ++ pyReprArr xs ++ "]"
  | .obj kvs => "\x7b" ++ pyReprObj kvs ++ "\x7d"

/-- Comma-separated rendering of a JSON array's elements. -/
def pyReprArr : List Json → String
  | [] => ""
  | [x] => pyRepr x
  | x :: y :: xs => pyRepr x ++ ", " ++ pyReprArr (y :: xs)

/-- Comma-separated rendering of a JSON object's entries. -/
def pyReprObj : List (String × Json) → String
  | [] => ""
  | [(k, v)] => "\x27" ++ k ++ "\x27: " ++ pyRepr v
  | (k, v) :: e :: kvs => "\x27" ++ k ++ "\x27: " ++ pyRepr v ++ ", " ++ pyReprObj (e :: kvs)

end

/-- The environment's outcome for one `requests.post(...)` call. -/
inductive HttpOutcome where
  | success : Json → HttpOutcome
  | httpError : Nat → String → HttpOutcome
  | timeout : HttpOutcome
  | exception : String → HttpOutcome

/-- The dynamically-typed second slot of the tuples the clients return:
a decoded JSON value on success, an error message string on failure. -/
inductive CallOut where
  | text : Json → CallOut
  | err : String → CallOut

/-- The tuple returned by `call_router`:
`(ok, texto_o_error, used_key)`. -/
structure CallResult where
  ok : Bool
  out : CallOut
  usedKey : String

/-- One outbound HTTP request (`requests.post(url, json=payload, timeout=t)`). -/
structure HttpRequest where
  url : String
  body : Json
  timeoutSec : Nat

/-- `falcon.py` lines 87-98 and `streamlit_app.py` lines 81-91 (identical
logic): normalise a decoded payload to its generated text.
A non-empty list headed by a dict is searched for `generated_text`, then
`text`, then `output_text` by key membership; a dict is searched for
`generated_text` only; every other shape yields nothing. -/
def extract : Json → Option Json
  | .arr (first :: _) =>
    match first with
    | .obj kvs =>
      match jsonGet kvs "generated_text" with
      | some v => some v
      | none =>
        match jsonGet kvs "text" with
        | some v => some v
        | none => jsonGet kvs "output_text"
    | _ => none
  | .obj kvs => jsonGet kvs "generated_text"
  | _ => none

/-- `provider or "auto"` (`falcon.py`): the provider when truthy, else
the literal `"auto"`. -/
def providerOrAuto : Option String → String
  | none => "auto"
  | some s => if s == "" then "auto" else s

/-- `falcon.py` line 50-51: the Router URL for a model. -/
def routerUrl (model_id : String) : String :=
  "https://router.huggingface.co/models/" ++ model_id

/-- `falcon.py` lines 70-80: the request body.  `inputs` and `parameters`
always; a top-level `provider` field appended when `provider` is truthy. -/
def routerPayload (prompt : String) (maxTokens : Int) (temperature : ℚ)
    (returnFullText : Bool) (provider : Option String) : Json :=
  let base : List (String × Json) :=
    [("inputs", .str prompt),
     ("parameters", .obj
       [("max_new_tokens", .num maxTokens),
        ("temperature", .num temperature),
        ("return_full_text", .bool returnFullText)])]
  if pyTruthyStr provider then
    .obj (base ++ [("provider", .str (pyStrOpt provider))])
  else
    .obj base

/-- `falcon.py` line 101: the message for a 2xx payload the extractor does
not recognise. -/
def routerUnexpectedMsg (model_id : String) (provider : Option String)
    (data : Json) : String :=
  "Respuesta inesperada del Router para " ++ model_id ++ " (provider=" ++
    pyStrOpt provider ++ "). Payload: " ++ strTake (pyRepr data) 400

/-- `falcon.py` lines 103-114: the message chosen inside the
`except requests.HTTPError` clause for a given status and body text. -/
def routerHTTPErrorMsg (model_id : String) (provider : Option String)
    (status : Nat) (body : String) : String :=
  if status == 404 then
    "404 Not Found para " ++ model_id ++ " (provider=" ++ pyStrOpt provider ++ ")."
  else if status == 503 then
    "503 Servicio no disponible (cold start) para " ++ model_id ++
      " (provider=" ++ pyStrOpt provider ++ ")."
  else if status == 410 then
    "410: api-inference.huggingface.co fue deprecado; usa router.huggingface.co. (Modelo=" ++
      model_id ++ ", provider=" ++ pyStrOpt provider ++ ")"
  else
    "HTTP " ++ toString status ++ " para " ++ model_id ++ " (provider=" ++
      pyStrOpt provider ++ "). Body: " ++ body

/-- `falcon.py` line 117: the `except requests.Timeout` message. -/
def routerTimeoutMsg (model_id : String) (provider : Option String) : String :=
  "Timeout para " ++ model_id ++ " (provider=" ++ pyStrOpt provider ++ ")."

/-- `falcon.py` lines 53-119, `call_router`: performs one POST to the Router
for (model, provider) and classifies the outcome.  Returns the
`(ok, texto_o_error, used_key)` tuple together with the request it posted
(`falcon.py` always posts; it has no configuration pre-check). -/
def call_router (outcome : HttpOutcome) (prompt : String) (model_id : String)
    (provider : Option String) (maxTokens : Int) (temperature : ℚ)
    (returnFullText : Bool) : CallResult × HttpRequest :=
  let req : HttpRequest :=
    ⟨routerUrl model_id, routerPayload prompt maxTokens temperature returnFullText provider, 180⟩
  let res : CallResult :=
    match outcome with
    | .success data =>
      match extract data with
      | some v => ⟨true, .text v, providerOrAuto provider⟩
      | none => ⟨false, .err (routerUnexpectedMsg model_id provider data), providerOrAuto provider⟩
    | .httpError status body =>
      ⟨false, .err (routerHTTPErrorMsg model_id provider status body), providerOrAuto provider⟩
    | .timeout =>
      ⟨false, .err (routerTimeoutMsg model_id provider), providerOrAuto provider⟩
    | .exception tb =>
      ⟨false, .err ("Excepción: " ++ strTake tb 800), providerOrAuto provider⟩
  (res, req)

/-! ## The fallback orchestrator: `robust_generate` (`falcon.py` lines 121-145)

One network environment for a whole run is an *oracle* mapping each
(model, provider) pair to the outcome its POST would receive; the loop
visits each pair at most once, so a deterministic oracle is faithful. -/

/-- The tuple returned by `robust_generate`:
`(ok, text_or_error, used_model, used_provider, tried_messages)`. -/
structure RGResult where
  ok : Bool
  textOrError : CallOut
  usedModel : Option String
  usedProvider : Option String
  triedMsgs : List CallOut

/-- One attempt actually performed by the orchestrator:
the (model, provider) pair it tried and the `call_router` result.
In `falcon.py` every attempt issues exactly one HTTP POST. -/
structure Attempt where
  model : String
  provider : Option String
  result : CallResult

/-- `falcon.py` line 145: the final message when every combination failed. -/
def noCombMsg : String :=
  "Ninguna combinación (modelo/proveedor) respondió correctamente."

/-- The inner `for p in providers` loop of `robust_generate` for a fixed
model `m`.  Returns `some` result when the `return` statement fired, the
failure-message accumulator, and the attempts performed. -/
def rgInner (oracle : String → Option String → HttpOutcome) (prompt : String)
    (maxTokens : Int) (temperature : ℚ) (m : String) :
    List (Option String) → List CallOut → Option RGResult × List CallOut × List Attempt
  | [], tried => (none, tried, [])
  | p :: ps, tried =>
    let r := (call_router (oracle m p) prompt m p maxTokens temperature false).1
    if r.ok then
      (some ⟨true, r.out, some m, some r.usedKey, tried⟩, tried, [⟨m, p, r⟩])
    else
      let rest := rgInner oracle prompt maxTokens temperature m ps (tried ++ [r.out])
      (rest.1, rest.2.1, ⟨m, p, r⟩ :: rest.2.2)

/-- The outer `for m in models` loop of `robust_generate`. -/
def rgOuter (oracle : String → Option String → HttpOutcome) (prompt : String)
    (providers : List (Option String)) (maxTokens : Int) (temperature : ℚ) :
    List String → List CallOut → RGResult × List Attempt
  | [], tried => (⟨false, .err noCombMsg, none, none, tried⟩, [])
  | m :: ms, tried =>
    match rgInner oracle prompt maxTokens temperature m providers tried with
    | (some res, _, ats) => (res, ats)
    | (none, tried2, ats) =>
      let rest := rgOuter oracle prompt providers maxTokens temperature ms tried2
      (rest.1, ats ++ rest.2)

/-- `falcon.py` lines 121-145, `robust_generate`: try every
(model, provider) combination in nested-loop order until one succeeds.
Also returns the list of attempts actually performed. -/
def robust_generate (oracle : String → Option String → HttpOutcome)
    (prompt : String) (models : List String) (providers : List (Option String))
    (maxTokens : Int) (temperature : ℚ) : RGResult × List Attempt :=
  rgOuter oracle prompt providers maxTokens temperature models []

/-- The candidate enumeration the nested loops induce: all providers of the
first model, then all providers of the second, and so on (model-major). -/
def candidatePairs (models : List String) (providers : List (Option String)) :
    List (String × Option String) :=
  models.flatMap (fun m => providers.map (fun p => (m, p)))

/-- The `call_router` result for one candidate pair under a given oracle. -/
def attemptAt (oracle : String → Option String → HttpOutcome) (prompt : String)
    (maxTokens : Int) (temperature : ℚ) (pr : String × Option String) : CallResult :=
  (call_router (oracle pr.1 pr.2) prompt pr.1 pr.2 maxTokens temperature false).1

/-- Flattened form of the nested loops: a single loop over the candidate
pairs.  `rgOuter_eq_rgFlat` below proves it equal to the embedding. -/
def rgFlat (oracle : String → Option String → HttpOutcome) (prompt : String)
    (maxTokens : Int) (temperature : ℚ) :
    List (String × Option String) → List CallOut → RGResult × List Attempt
  | [], tried => (⟨false, .err noCombMsg, none, none, tried⟩, [])
  | pr :: prs, tried =>
    let r := attemptAt oracle prompt maxTokens temperature pr
    if r.ok then
      (⟨true, r.out, some pr.1, some r.usedKey, tried⟩, [⟨pr.1, pr.2, r⟩])
    else
      let rest := rgFlat oracle prompt maxTokens temperature prs (tried ++ [r.out])
      (rest.1, ⟨pr.1, pr.2, r⟩ :: rest.2)

/-- `falcon.py` lines 37-43: the static model preference list. -/
def CANDIDATE_MODELS : List String :=
  ["HuggingFaceH4/zephyr-7b-beta",
   "mistralai/Mistral-7B-Instruct-v0.2",
   "google/gemma-2-2b-it",
   "Qwen/Qwen2.5-7B-Instruct",
   "gpt2"]

/-- `falcon.py` line 46: the provider list; `none` means automatic routing. -/
def CANDIDATE_PROVIDERS : List (Option String) :=
  [none, some "hf-inference", some "together", some "fireworks", some "perplexity"]

/-! ## The dedicated-endpoint variant (`streamlit_app.py`) -/

/-- `streamlit_app.py` lines 63-74: the request body of
`hf_generate_via_endpoint`.  Only `inputs` and `parameters`, and the
parameters carry only `max_new_tokens` and `temperature` (the
`return_full_text` line is commented out in the source). -/
def endpointPayload (prompt : String) (maxTokens : Int) (temperature : ℚ) : Json :=
  .obj
    [("inputs", .str prompt),
     ("parameters", .obj
       [("max_new_tokens", .num maxTokens),
        ("temperature", .num temperature)])]

/-- `streamlit_app.py` line 94 / 214 / 220: unexpected-shape message. -/
def endpointUnexpectedMsg (data : Json) : String :=
  "Respuesta inesperada del endpoint: " ++ strTake (pyRepr data) 400

/-- `streamlit_app.py` lines 96-107: the `except requests.HTTPError`
classification of the dedicated-endpoint client (note: no 410 branch). -/
def endpointHTTPErrorMsg (status : Nat) (body : String) : String :=
  if status == 401 then
    "401 No autorizado: revisa tu HF_TOKEN o permisos."
  else if status == 403 then
    "403 Prohibido: el endpoint o el modelo requieren permisos/licencia."
  else if status == 404 then
    "404 No encontrado: revisa la URL HF_ENDPOINT_URL."
  else if status == 503 then
    "503 Servicio no disponible: el endpoint está arrancando (cold start) o saturado."
  else
    "HTTP " ++ toString status ++ ": " ++ body

/-- `streamlit_app.py` line 56: the configuration-incomplete message. -/
def configIncompleteMsg : String :=
  "Configuración incompleta: faltan secretos HF_TOKEN o HF_ENDPOINT_URL."

/-- `streamlit_app.py` lines 49-112, `hf_generate_via_endpoint`: one call to
the dedicated endpoint.  Returns the `(ok, text_or_message)` pair and the
list of HTTP requests actually posted (empty when the token or URL is
missing: the function returns before any network call). -/
def hf_generate_via_endpoint (hfToken endpointUrl : Option String)
    (outcome : HttpOutcome) (prompt : String) (maxTokens : Int)
    (temperature : ℚ) : (Bool × CallOut) × List HttpRequest :=
  if !pyTruthyStr hfToken || !pyTruthyStr endpointUrl then
    ((false, .err configIncompleteMsg), [])
  else
    let req : HttpRequest :=
      ⟨pyStrOpt endpointUrl, endpointPayload prompt maxTokens temperature, 180⟩
    let res : Bool × CallOut :=
      match outcome with
      | .success data =>
        match extract data with
        | some v => (true, .text v)
        | none => (false, .err (endpointUnexpectedMsg data))
      | .httpError status body => (false, .err (endpointHTTPErrorMsg status body))
      | .timeout => (false, .err "⏰ Timeout: el endpoint tardó demasiado en responder.")
      | .exception tb => (false, .err ("Excepción: " ++ strTake tb 800))
    (res, [req])

/-- Python `x or y` on optional JSON values (`dict.get` results): the left
value when truthy, otherwise the right value as-is. -/
def pyOrJson (a b : Option Json) : Option Json :=
  match a with
  | some j => if pyTruthyJson j then some j else b
  | none => b

/-- Python `x is not None` on a `dict.get`-result chain: a missing key is
`None`, and a stored JSON `null` is the same Python `None`. -/
def isNotNone : Option Json → Bool
  | none => false
  | some .null => false
  | some _ => true

/-- `streamlit_app.py` lines 209-220: the response handling of the inline
endpoint call.  The list-headed-by-dict case uses
`d0.get("generated_text") or d0.get("text") or d0.get("output_text")` and
`ok = poem is not None`; the dict case uses key membership like the others. -/
def inlineExtract (data : Json) : Bool × CallOut :=
  match data with
  | .arr (first :: _) =>
    match first with
    | .obj kvs =>
      let poem :=
        pyOrJson (pyOrJson (jsonGet kvs "generated_text") (jsonGet kvs "text"))
          (jsonGet kvs "output_text")
      if isNotNone poem then
        (true, .text (poem.getD .null))
      else
        (false, .err (endpointUnexpectedMsg data))
    | _ => (false, .err (endpointUnexpectedMsg data))
  | .obj kvs =>
    match jsonGet kvs "generated_text" with
    | some v => (true, .text v)
    | none => (false, .err (endpointUnexpectedMsg data))
  | _ => (false, .err (endpointUnexpectedMsg data))

/-- Python `dict.update`: replace the value of an existing key, append a new
key at the end, preserving insertion order. -/
def dictUpdate (d extras : List (String × Json)) : List (String × Json) :=
  extras.foldl
    (fun acc kv =>
      if acc.any (fun e => e.1 == kv.1) then
        acc.map (fun e => if e.1 == kv.1 then (e.1, kv.2) else e)
      else acc ++ [kv])
    d

/-- `streamlit_app.py` lines 170-182, `_merge_extra_params`: add the
non-default sidebar decoding values to the payload's `parameters` mapping
(`setdefault("parameters", {}).update(extras)`). -/
def mergeExtraParams (topP : ℚ) (topK : Int) (repetitionPenalty : ℚ)
    (basePayload : List (String × Json)) : List (String × Json) :=
  let extras : List (String × Json) :=
    (if topP != (0.9 : ℚ) then [("top_p", .num topP)] else []) ++
    (if topK != 50 then [("top_k", .num topK)] else []) ++
    (if repetitionPenalty != (1.15 : ℚ) then [("repetition_penalty", .num repetitionPenalty)] else [])
  if basePayload.any (fun e => e.1 == "parameters") then
    basePayload.map (fun e =>
      if e.1 == "parameters" then
        (e.1, match e.2 with
              | .obj ps => .obj (dictUpdate ps extras)
              | other => other)
      else e)
  else
    basePayload ++ [("parameters", .obj (dictUpdate [] extras))]

/-- `streamlit_app.py` lines 188-205: the payload of the inline endpoint
call — the base payload (`inputs` plus `max_new_tokens`/`temperature`)
with the non-default extras merged into `parameters`. -/
def inlinePayload (prompt : String) (maxTokens : Int) (temperature topP : ℚ)
    (topK : Int) (repetitionPenalty : ℚ) : Json :=
  .obj (mergeExtraParams topP topK repetitionPenalty
    [("inputs", .str prompt),
     ("parameters", .obj
       [("max_new_tokens", .num maxTokens),
        ("temperature", .num temperature)])])

/-! ## The falcon generation flow (`falcon.py` lines 169-200)

The prompt itself is assembled from the topic, style and sampled dataset
verses (PromptBuilder, an external collaborator per the spec); the flow
below receives the assembled prompt.  The dataset is represented by its
row count (`df is None or df.empty`). -/

/-- Python `str.strip()`: drop whitespace from both ends. -/
def pyStrip (s : String) : String :=
  ⟨((s.data.dropWhile fun c => c.isWhitespace).reverse.dropWhile
      fun c => c.isWhitespace).reverse⟩

/-- What the button handler displays: an error message, or the
`robust_generate` outcome. -/
inductive UiOutcome where
  | errorMsg : String → UiOutcome
  | generated : RGResult → UiOutcome

/-- `falcon.py` lines 169-200: the generate-button handler.  Guards in
source order: invalid topic, missing `HF_TOKEN`, unusable dataset; only
then is `robust_generate` invoked (so a missing token run performs no
attempt and hence no HTTP call). -/
def generateButtonFlow (tema : String) (hfToken : Option String)
    (dfRows : Option Nat) (oracle : String → Option String → HttpOutcome)
    (prompt : String) : UiOutcome × List Attempt :=
  if tema == "" || (pyStrip tema).length < 3 then
    (.errorMsg "Por favor, ingresa un tema válido para la generación.", [])
  else if !pyTruthyStr hfToken then
    (.errorMsg "El token de Hugging Face (HF_TOKEN) es necesario.", [])
  else if (match dfRows with | none => true | some n => n == 0) then
    (.errorMsg "El dataset de poemas no se cargó correctamente.", [])
  else
    let r := robust_generate oracle prompt CANDIDATE_MODELS CANDIDATE_PROVIDERS 300 (0.9 : ℚ)
    (.generated r.1, r.2)

/-! ## Exception-level semantics of the clients

`call_router` and `hf_generate_via_endpoint` wrap their network call in
`try`/`except requests.HTTPError`/`except requests.Timeout`/
`except Exception`.  We model raised Python exceptions explicitly and show
that the handler chain catches every one of them, so no per-attempt failure
propagates past the client (`requests.HTTPError` and `requests.Timeout`
both derive from `Exception`, hence the last clause matches anything). -/

/-- A Python exception that the try-block of a client can raise. -/
inductive PyExc where
  | httpError : Nat → String → PyExc
  | timeout : PyExc
  | other : String → PyExc

/-- Run an ordered `except` clause list on a raised exception: the first
clause that catches it produces the handler's value. -/
def firstHandled (handlers : List (PyExc → Option α)) (e : PyExc) : Option α :=
  match handlers with
  | [] => none
  | h :: rest =>
    match h e with
    | some a => some a
    | none => firstHandled rest e

/-- `try body except ...`: an uncaught exception propagates as `.error`. -/
def tryExcept (body : Except PyExc α) (handlers : List (PyExc → Option α)) :
    Except PyExc α :=
  match body with
  | .ok a => .ok a
  | .error e =>
    match firstHandled handlers e with
    | some a => .ok a
    | none => .error e

/-- `traceback.format_exception` joined to one string, as the
`except Exception` clauses consume it. -/
def pyExcTraceback : PyExc → String
  | .httpError status body => "requests.exceptions.HTTPError: " ++ toString status ++ " " ++ body
  | .timeout => "requests.exceptions.Timeout"
  | .other tb => tb

/-- The try-block body of `call_router` (`falcon.py` lines 82-101):
post, `raise_for_status`, decode, extract; exceptional outcomes raise. -/
def routerTryBody (outcome : HttpOutcome) (model_id : String)
    (provider : Option String) : Except PyExc CallResult :=
  match outcome with
  | .success data =>
    match extract data with
    | some v => .ok ⟨true, .text v, providerOrAuto provider⟩
    | none => .ok ⟨false, .err (routerUnexpectedMsg model_id provider data), providerOrAuto provider⟩
  | .httpError status body => .error (.httpError status body)
  | .timeout => .error .timeout
  | .exception tb => .error (.other tb)

/-- The `except` clauses of `call_router` (`falcon.py` lines 103-119), in
source order.  The final `except Exception` catches every `PyExc`. -/
def routerHandlers (model_id : String) (provider : Option String) :
    List (PyExc → Option CallResult) :=
  [fun e =>
     match e with
     | .httpError status body =>
       some ⟨false, .err (routerHTTPErrorMsg model_id provider status body), providerOrAuto provider⟩
     | _ => none,
   fun e =>
     match e with
     | .timeout => some ⟨false, .err (routerTimeoutMsg model_id provider), providerOrAuto provider⟩
     | _ => none,
   fun e =>
     some ⟨false, .err ("Excepción: " ++ strTake (pyExcTraceback e) 800), providerOrAuto provider⟩]

/-- `call_router` with exception propagation made explicit: the try-block
body run under the source's `except` clause chain. -/
def call_router_exc (outcome : HttpOutcome) (model_id : String)
    (provider : Option String) : Except PyExc CallResult :=
  tryExcept (routerTryBody outcome model_id provider) (routerHandlers model_id provider)

/-- The try-block body of `hf_generate_via_endpoint`
(`streamlit_app.py` lines 76-94). -/
def endpointTryBody (outcome : HttpOutcome) : Except PyExc (Bool × CallOut) :=
  match outcome with
  | .success data =>
    match extract data with
    | some v => .ok (true, .text v)
    | none => .ok (false, .err (endpointUnexpectedMsg data))
  | .httpError status body => .error (.httpError status body)
  | .timeout => .error .timeout
  | .exception tb => .error (.other tb)

/-- The `except` clauses of `hf_generate_via_endpoint`
(`streamlit_app.py` lines 96-112), in source order. -/
def endpointHandlers : List (PyExc → Option (Bool × CallOut)) :=
  [fun e =>
     match e with
     | .httpError status body => some (false, .err (endpointHTTPErrorMsg status body))
     | _ => none,
   fun e =>
     match e with
     | .timeout => some (false, .err "⏰ Timeout: el endpoint tardó demasiado en responder.")
     | _ => none,
   fun e =>
     some (false, .err ("Excepción: " ++ strTake (pyExcTraceback e) 800))]

/-- `hf_generate_via_endpoint` with exception propagation made explicit:
the configuration check returns early, otherwise the try-block body runs
under the source's `except` clause chain. -/
def hf_generate_via_endpoint_exc (hfToken endpointUrl : Option String)
    (outcome : HttpOutcome) : Except PyExc (Bool × CallOut) :=
  if !pyTruthyStr hfToken || !pyTruthyStr endpointUrl then
    .ok (false, .err configIncompleteMsg)
  else
    tryExcept (endpointTryBody outcome) endpointHandlers

/-! ## String containment (for the diagnosability claims) -/

/-- `needle` is a prefix of `hay` (over character lists). -/
def charsStartWith : List Char → List Char → Bool
  | [], _ => true
  | _ :: _, [] => false
  | c :: cs, d :: ds => c == d && charsStartWith cs ds

/-- `needle` occurs contiguously inside `hay` (over character lists). -/
def charsContain (needle : List Char) : List Char → Bool
  | [] => charsStartWith needle []
  | c :: t => charsStartWith needle (c :: t) || charsContain needle t

/-- `needle` occurs as a contiguous substring of `hay`. -/
def strContains (hay needle : String) : Bool :=
  charsContain needle.data hay.data

/-! ## Helper lemmas -/

theorem charsStartWith_append_self (n rest : List Char) :
    charsStartWith n (n ++ rest) = true := by
  induction n with
  | nil => rfl
  | cons c cs ih => simp [charsStartWith, ih]

theorem charsContain_of_append (pre n suf : List Char) :
    charsContain n (pre ++ (n ++ suf)) = true := by
  induction pre with
  | nil =>
    cases h : n ++ suf with
    | nil =>
      have hn : n = [] := by
        cases n with
        | nil => rfl
        | cons a as => simp at h
      simp [charsContain, hn, charsStartWith]
    | cons c t =>
      simp only [List.nil_append, h, charsContain]
      rw [← h, charsStartWith_append_self]
      simp
  | cons c t ih =>
    simp only [List.cons_append, charsContain, List.append_eq]
    rw [ih]
    simp

/-- A string assembled as `a ++ m ++ b` contains `m`. -/
theorem strContains_of_eq (s a m b : String) (h : s = a ++ m ++ b) :
    strContains s m = true := by
  subst h
  show charsContain m.data ((a ++ m ++ b)).data = true
  have : (a ++ m ++ b).data = a.data ++ (m.data ++ b.data) := by
    simp [String.data_append]
  rw [this]
  exact charsContain_of_append a.data m.data b.data

theorem candidatePairs_cons (m : String) (ms : List String)
    (providers : List (Option String)) :
    candidatePairs (m :: ms) providers =
      providers.map (fun p => (m, p)) ++ candidatePairs ms providers := rfl

/-- The inner provider loop, flattened: running `rgFlat` on this model's
pairs followed by the remaining pairs agrees with `rgInner` followed by
`rgFlat` on the rest. -/
theorem rgFlat_inner (oracle : String → Option String → HttpOutcome)
    (prompt : String) (maxTokens : Int) (temperature : ℚ) (m : String)
    (ps : List (Option String)) (rest : List (String × Option String))
    (tried : List CallOut) :
    rgFlat oracle prompt maxTokens temperature (ps.map (fun p => (m, p)) ++ rest) tried =
      match rgInner oracle prompt maxTokens temperature m ps tried with
      | (some r, _, ats) => (r, ats)
      | (none, t2, ats) =>
        ((rgFlat oracle prompt maxTokens temperature rest t2).1,
         ats ++ (rgFlat oracle prompt maxTokens temperature rest t2).2) := by
  induction ps generalizing tried with
  | nil => simp [rgInner]
  | cons p ps ih =>
    by_cases h :
        ((call_router (oracle m p) prompt m p maxTokens temperature false).1).ok
    · simp [rgFlat, rgInner, attemptAt, h]
    · simp only [List.map_cons, List.cons_append, rgFlat, rgInner, attemptAt, h,
        Bool.false_eq_true, if_false, List.append_eq]
      rw [ih]
      rcases hr : rgInner oracle prompt maxTokens temperature m ps
        (tried ++ [((call_router (oracle m p) prompt m p maxTokens temperature false).1).out]) with
        ⟨o, t2, ats⟩
      cases o with
      | some r => simp
      | none => simp

/-- The nested loops of `robust_generate` equal the single flattened loop
over the model-major candidate enumeration. -/
theorem rgOuter_eq_rgFlat (oracle : String → Option String → HttpOutcome)
    (prompt : String) (providers : List (Option String)) (maxTokens : Int)
    (temperature : ℚ) (models : List String) (tried : List CallOut) :
    rgOuter oracle prompt providers maxTokens temperature models tried =
      rgFlat oracle prompt maxTokens temperature
        (candidatePairs models providers) tried := by
  induction models generalizing tried with
  | nil => simp [rgOuter, candidatePairs, rgFlat]
  | cons m ms ih =>
    rw [candidatePairs_cons, rgFlat_inner]
    simp only [rgOuter]
    cases hr : rgInner oracle prompt maxTokens temperature m providers tried with
    | mk o rest2 =>
      cases o with
      | some r => simp
      | none => simp [ih]

theorem robust_generate_eq_rgFlat (oracle : String → Option String → HttpOutcome)
    (prompt : String) (models : List String) (providers : List (Option String))
    (maxTokens : Int) (temperature : ℚ) :
    robust_generate oracle prompt models providers maxTokens temperature =
      rgFlat oracle prompt maxTokens temperature
        (candidatePairs models providers) [] :=
  rgOuter_eq_rgFlat oracle prompt providers maxTokens temperature models []

/-- When every candidate in the list fails, the flattened loop exhausts the
list, appends every failure message in order, and reports failure. -/
theorem rgFlat_allFail (oracle : String → Option String → HttpOutcome)
    (prompt : String) (maxTokens : Int) (temperature : ℚ)
    (prs : List (String × Option String)) (tried : List CallOut)
    (hfail : ∀ pr ∈ prs, (attemptAt oracle prompt maxTokens temperature pr).ok = false) :
    rgFlat oracle prompt maxTokens temperature prs tried =
      (⟨false, .err noCombMsg, none, none,
        tried ++ prs.map (fun pr => (attemptAt oracle prompt maxTokens temperature pr).out)⟩,
       prs.map (fun pr => ⟨pr.1, pr.2, attemptAt oracle prompt maxTokens temperature pr⟩)) := by
  induction prs generalizing tried with
  | nil => simp [rgFlat]
  | cons pr prs ih =>
    have hhd : (attemptAt oracle prompt maxTokens temperature pr).ok = false :=
      hfail pr (List.mem_cons_self pr prs)
    have htl : ∀ q ∈ prs, (attemptAt oracle prompt maxTokens temperature q).ok = false :=
      fun q hq => hfail q (List.mem_cons_of_mem pr hq)
    simp only [rgFlat, hhd, Bool.false_eq_true, if_false, ih _ htl, List.map_cons]
    simp

/-- When a (possibly empty) prefix of candidates fails and the next one
succeeds, the flattened loop stops there: it returns the successful
attempt's text and target, the prefix's failure messages as the tried log,
and a trace of exactly the prefix attempts followed by the success. -/
theorem rgFlat_prefix_success (oracle : String → Option String → HttpOutcome)
    (prompt : String) (maxTokens : Int) (temperature : ℚ)
    (pre : List (String × Option String)) (spr : String × Option String)
    (rest : List (String × Option String)) (tried : List CallOut)
    (hfail : ∀ pr ∈ pre, (attemptAt oracle prompt maxTokens temperature pr).ok = false)
    (hsucc : (attemptAt oracle prompt maxTokens temperature spr).ok = true) :
    rgFlat oracle prompt maxTokens temperature (pre ++ spr :: rest) tried =
      (⟨true, (attemptAt oracle prompt maxTokens temperature spr).out,
        some spr.1, some (attemptAt oracle prompt maxTokens temperature spr).usedKey,
        tried ++ pre.map (fun pr => (attemptAt oracle prompt maxTokens temperature pr).out)⟩,
       pre.map (fun pr => ⟨pr.1, pr.2, attemptAt oracle prompt maxTokens temperature pr⟩) ++
         [⟨spr.1, spr.2, attemptAt oracle prompt maxTokens temperature spr⟩]) := by
  induction pre generalizing tried with
  | nil => simp [rgFlat, hsucc]
  | cons pr pre ih =>
    have hhd : (attemptAt oracle prompt maxTokens temperature pr).ok = false :=
      hfail pr (List.mem_cons_self pr pre)
    have htl : ∀ q ∈ pre, (attemptAt oracle prompt maxTokens temperature q).ok = false :=
      fun q hq => hfail q (List.mem_cons_of_mem pr hq)
    simp only [List.cons_append, rgFlat, hhd, Bool.false_eq_true, if_false, List.append_eq]
    rw [ih _ htl]
    simp

theorem candidatePairs_length (models : List String)
    (providers : List (Option String)) :
    (candidatePairs models providers).length = models.length * providers.length := by
  induction models with
  | nil => simp [candidatePairs]
  | cons m ms ih =>
    simp [candidatePairs] at ih ⊢
    simp [ih, Nat.succ_mul, Nat.add_comm]

/-! ## Claims -/

/-- Claim C3 (confirmed): on a non-empty list headed by a mapping, the
extractor returns the first value present among `generated_text`, `text`,
`output_text` in that priority order; a bare mapping is searched for
`generated_text` only; every other shape (empty list, non-mapping head,
mapping without `generated_text`, scalar) yields nothing; in particular the
four spec shapes return exactly the embedded value. -/
theorem claim_C3_extractor (kvs : List (String × Json)) (tail : List Json)
    (T : Json) (s : String) (q : ℚ) (b : Bool) (l : List Json) :
    extract (.arr (.obj kvs :: tail)) =
      ((jsonGet kvs "generated_text").or
        ((jsonGet kvs "text").or (jsonGet kvs "output_text"))) ∧
    extract (.obj kvs) = jsonGet kvs "generated_text" ∧
    extract (.arr [.obj [("generated_text", T)]]) = some T ∧
    extract (.obj [("generated_text", T)]) = some T ∧
    extract (.arr [.obj [("text", T)]]) = some T ∧
    extract (.arr [.obj [("output_text", T)]]) = some T ∧
    extract (.arr []) = none ∧
    extract (.str s) = none ∧
    extract (.num q) = none ∧
    extract (.bool b) = none ∧
    extract .null = none ∧
    extract (.arr (.str s :: tail)) = none ∧
    extract (.arr (.arr l :: tail)) = none ∧
    extract (.obj []) = none := by
  refine ⟨?_, rfl, rfl, rfl, rfl, rfl, rfl, rfl, rfl, rfl, rfl, rfl, rfl, rfl⟩
  cases hg : jsonGet kvs "generated_text" <;>
    cases ht : jsonGet kvs "text" <;>
      simp [extract, hg, ht, Option.or]

/-- Claim C2 (confirmed): on each failure the orchestrator appends the
failure to the log and advances to the next candidate regardless of the
failure kind; when every candidate fails, `robust_generate` returns
ok = False, a log with one Failure entry per candidate, and a trace of only
failed attempts; an empty model list returns immediately with an empty log
and an empty attempt trace, hence no network call. -/
theorem claim_C2_exhaustion (oracle : String → Option String → HttpOutcome)
    (prompt : String) (models : List String) (providers : List (Option String))
    (maxTokens : Int) (temperature : ℚ)
    (hfail : ∀ pr ∈ candidatePairs models providers,
      (attemptAt oracle prompt maxTokens temperature pr).ok = false) :
    robust_generate oracle prompt models providers maxTokens temperature =
      (⟨false, .err noCombMsg, none, none,
        (candidatePairs models providers).map
          (fun pr => (attemptAt oracle prompt maxTokens temperature pr).out)⟩,
       (candidatePairs models providers).map
         (fun pr => ⟨pr.1, pr.2, attemptAt oracle prompt maxTokens temperature pr⟩)) ∧
    (robust_generate oracle prompt models providers maxTokens temperature).1.triedMsgs.length =
      (candidatePairs models providers).length ∧
    (∀ a ∈ (robust_generate oracle prompt models providers maxTokens temperature).2,
      a.result.ok = false) ∧
    (models = [] →
      robust_generate oracle prompt models providers maxTokens temperature =
        (⟨false, .err noCombMsg, none, none, []⟩, [])) ∧
    (∀ pr prs tried, (attemptAt oracle prompt maxTokens temperature pr).ok = false →
      rgFlat oracle prompt maxTokens temperature (pr :: prs) tried =
        ((rgFlat oracle prompt maxTokens temperature prs
            (tried ++ [(attemptAt oracle prompt maxTokens temperature pr).out])).1,
         ⟨pr.1, pr.2, attemptAt oracle prompt maxTokens temperature pr⟩ ::
           (rgFlat oracle prompt maxTokens temperature prs
             (tried ++ [(attemptAt oracle prompt maxTokens temperature pr).out])).2)) := by
  have hmain := robust_generate_eq_rgFlat oracle prompt models providers maxTokens temperature
  have hall := rgFlat_allFail oracle prompt maxTokens temperature
    (candidatePairs models providers) [] hfail
  refine ⟨?_, ?_, ?_, ?_, ?_⟩
  · rw [hmain, hall]; simp
  · rw [hmain, hall]; simp
  · rw [hmain, hall]
    intro a ha
    simp only [List.mem_map] at ha
    obtain ⟨pr, hpr, rfl⟩ := ha
    exact hfail pr hpr
  · intro h; subst h; rfl
  · intro pr prs tried h
    simp [rgFlat, h]

/-- Witness for C2: three candidates, every attempt answers HTTP 503. -/
theorem claim_C2_witness :
    (∀ pr ∈ candidatePairs ["a", "b", "c"] [(none : Option String)],
       (attemptAt (fun _ _ => HttpOutcome.httpError 503 "") "p" 300 (0.9 : ℚ) pr).ok = false) ∧
    (robust_generate (fun _ _ => HttpOutcome.httpError 503 "") "p"
        ["a", "b", "c"] [none] 300 (0.9 : ℚ)).1.triedMsgs.length =
      (candidatePairs ["a", "b", "c"] [(none : Option String)]).length :=
  ⟨by decide,
   (claim_C2_exhaustion (fun _ _ => HttpOutcome.httpError 503 "") "p"
     ["a", "b", "c"] [none] 300 (0.9 : ℚ) (by decide)).2.1⟩

/-- Claim C9 (confirmed): the nested loops enumerate (model, provider)
pairs model-major — all providers of the first model in list order, then
the next model, and so on; when every attempt fails, exactly
`|models| * |providers|` attempts are made, and the failure log lists their
messages in that enumeration order. -/
theorem claim_C9_enumeration (oracle : String → Option String → HttpOutcome)
    (prompt : String) (models : List String) (providers : List (Option String))
    (maxTokens : Int) (temperature : ℚ)
    (hm : models ≠ []) (hp : providers ≠ [])
    (hfail : ∀ pr ∈ candidatePairs models providers,
      (attemptAt oracle prompt maxTokens temperature pr).ok = false) :
    (robust_generate oracle prompt models providers maxTokens temperature).2 =
      (models.flatMap (fun m => providers.map (fun p => (m, p)))).map
        (fun pr => ⟨pr.1, pr.2, attemptAt oracle prompt maxTokens temperature pr⟩) ∧
    (robust_generate oracle prompt models providers maxTokens temperature).2.length =
      models.length * providers.length ∧
    (robust_generate oracle prompt models providers maxTokens temperature).1.ok = false ∧
    (robust_generate oracle prompt models providers maxTokens temperature).1.triedMsgs =
      (models.flatMap (fun m => providers.map (fun p => (m, p)))).map
        (fun pr => (attemptAt oracle prompt maxTokens temperature pr).out) ∧
    (robust_generate oracle prompt models providers maxTokens temperature).1.triedMsgs.length =
      models.length * providers.length := by
  have hmain := robust_generate_eq_rgFlat oracle prompt models providers maxTokens temperature
  have hall := rgFlat_allFail oracle prompt maxTokens temperature
    (candidatePairs models providers) [] hfail
  have hlen := candidatePairs_length models providers
  refine ⟨?_, ?_, ?_, ?_, ?_⟩ <;> rw [hmain, hall]
  · rfl
  · rw [List.length_map]
    exact hlen
  · rfl
  · simp only [List.nil_append, List.length_map]
    exact hlen

/-- Witness for C9: two models and two providers, every attempt 404s:
four attempts in model-major order. -/
theorem claim_C9_witness :
    (∀ pr ∈ candidatePairs ["m1", "m2"] [none, some "pr"],
       (attemptAt (fun _ _ => HttpOutcome.httpError 404 "") "p" 300 (0.9 : ℚ) pr).ok = false) ∧
    (robust_generate (fun _ _ => HttpOutcome.httpError 404 "") "p"
        ["m1", "m2"] [none, some "pr"] 300 (0.9 : ℚ)).2.length = 4 :=
  ⟨by decide,
   (claim_C9_enumeration (fun _ _ => HttpOutcome.httpError 404 "") "p"
     ["m1", "m2"] [none, some "pr"] 300 (0.9 : ℚ)
     (by decide) (by decide) (by decide)).2.1⟩

/-- Counterexample to claim C1 as stated: with one candidate whose first
attempt succeeds (N = 1, K = 0), `robust_generate` reports success but its
returned log is empty — it has 0 entries, not K + 1 = 1, and in particular
does not end with a Success entry.  The successful attempt is reported only
through the flag, text and used model/provider. -/
theorem claim_C1_counterexample :
    (robust_generate
        (fun _ _ => HttpOutcome.success (.arr [.obj [("generated_text", .str "poema")]]))
        "p" ["m1"] [none] 300 (0.9 : ℚ)).1.ok = true ∧
    (robust_generate
        (fun _ _ => HttpOutcome.success (.arr [.obj [("generated_text", .str "poema")]]))
        "p" ["m1"] [none] 300 (0.9 : ℚ)).1.triedMsgs = [] :=
  ⟨rfl, rfl⟩

/-- Claim C1 (amended): if the first K candidates fail and candidate K+1
succeeds, `robust_generate` returns ok = True with the text and target of
candidate K+1; the K+1 attempts actually performed are the K failures
followed by the success; but the returned `tried_messages` log holds
exactly the K failure messages in order — the successful attempt is not
appended to it. -/
theorem claim_C1_fallback_success (oracle : String → Option String → HttpOutcome)
    (prompt : String) (models : List String) (providers : List (Option String))
    (maxTokens : Int) (temperature : ℚ) (K : Nat)
    (hK : K < (candidatePairs models providers).length)
    (hfail : ∀ pr ∈ (candidatePairs models providers).take K,
      (attemptAt oracle prompt maxTokens temperature pr).ok = false)
    (hsucc : (attemptAt oracle prompt maxTokens temperature
      ((candidatePairs models providers).get ⟨K, hK⟩)).ok = true) :
    robust_generate oracle prompt models providers maxTokens temperature =
      (⟨true,
        (attemptAt oracle prompt maxTokens temperature
          ((candidatePairs models providers).get ⟨K, hK⟩)).out,
        some ((candidatePairs models providers).get ⟨K, hK⟩).1,
        some (attemptAt oracle prompt maxTokens temperature
          ((candidatePairs models providers).get ⟨K, hK⟩)).usedKey,
        ((candidatePairs models providers).take K).map
          (fun pr => (attemptAt oracle prompt maxTokens temperature pr).out)⟩,
       ((candidatePairs models providers).take K).map
         (fun pr => ⟨pr.1, pr.2, attemptAt oracle prompt maxTokens temperature pr⟩) ++
        [⟨((candidatePairs models providers).get ⟨K, hK⟩).1,
          ((candidatePairs models providers).get ⟨K, hK⟩).2,
          attemptAt oracle prompt maxTokens temperature
            ((candidatePairs models providers).get ⟨K, hK⟩)⟩]) ∧
    (robust_generate oracle prompt models providers maxTokens temperature).1.triedMsgs.length = K ∧
    (robust_generate oracle prompt models providers maxTokens temperature).2.length = K + 1 := by
  have hsplit :
      candidatePairs models providers =
        (candidatePairs models providers).take K ++
          (candidatePairs models providers).get ⟨K, hK⟩ ::
            (candidatePairs models providers).drop (K + 1) := by
    conv_lhs => rw [← List.take_append_drop K (candidatePairs models providers)]
    rw [List.drop_eq_get_cons hK]
  have hmain := robust_generate_eq_rgFlat oracle prompt models providers maxTokens temperature
  have hrun := rgFlat_prefix_success oracle prompt maxTokens temperature
    ((candidatePairs models providers).take K)
    ((candidatePairs models providers).get ⟨K, hK⟩)
    ((candidatePairs models providers).drop (K + 1)) [] hfail hsucc
  have heq :
      robust_generate oracle prompt models providers maxTokens temperature =
        (⟨true,
          (attemptAt oracle prompt maxTokens temperature
            ((candidatePairs models providers).get ⟨K, hK⟩)).out,
          some ((candidatePairs models providers).get ⟨K, hK⟩).1,
          some (attemptAt oracle prompt maxTokens temperature
            ((candidatePairs models providers).get ⟨K, hK⟩)).usedKey,
          ((candidatePairs models providers).take K).map
            (fun pr => (attemptAt oracle prompt maxTokens temperature pr).out)⟩,
         ((candidatePairs models providers).take K).map
           (fun pr => ⟨pr.1, pr.2, attemptAt oracle prompt maxTokens temperature pr⟩) ++
          [⟨((candidatePairs models providers).get ⟨K, hK⟩).1,
            ((candidatePairs models providers).get ⟨K, hK⟩).2,
            attemptAt oracle prompt maxTokens temperature
              ((candidatePairs models providers).get ⟨K, hK⟩)⟩]) := by
    rw [hmain]
    conv_lhs => rw [hsplit]
    rw [hrun]
    simp
  refine ⟨heq, ?_, ?_⟩
  · rw [heq]
    simp only [List.length_map, List.length_take]
    exact Nat.min_eq_left hK.le
  · rw [heq]
    simp only [List.length_append, List.length_map, List.length_take,
      List.length_cons, List.length_nil]
    rw [Nat.min_eq_left hK.le]

/-- Oracle for the C1 witness: `model-A` answers HTTP 404, every other
model answers a well-formed generation. -/
def c1Oracle : String → Option String → HttpOutcome := fun m _ =>
  if m == "model-A" then .httpError 404 ""
  else .success (.arr [.obj [("generated_text", .str "Luna de otoño...")]])

/-- Witness for C1: two candidates, the first fails with 404 and the
second succeeds; the returned log has exactly one entry (the failure) and
two attempts were performed. -/
theorem claim_C1_witness :
    (∀ pr ∈ (candidatePairs ["model-A", "model-B"] [(none : Option String)]).take 1,
       (attemptAt c1Oracle "p" 300 (0.9 : ℚ) pr).ok = false) ∧
    (robust_generate c1Oracle "p" ["model-A", "model-B"] [none] 300 (0.9 : ℚ)).1.triedMsgs.length = 1 ∧
    (robust_generate c1Oracle "p" ["model-A", "model-B"] [none] 300 (0.9 : ℚ)).2.length = 2 :=
  ⟨by decide,
   (claim_C1_fallback_success c1Oracle "p" ["model-A", "model-B"] [none] 300 (0.9 : ℚ) 1
     (by decide) (by decide) (by decide)).2⟩

/-- Counterexample to claim C4 as stated: in the Router variant an HTTP 401
produces the generic `HTTP {status} ...` message, not a distinct
Unauthorized message; and in the dedicated-endpoint variant an HTTP 410
produces the generic `HTTP 410: ...` message, not a message instructing the
caller to switch API base. -/
theorem claim_C4_counterexample :
    (call_router (.httpError 401 "denied") "p" "m" none 300 (0.9 : ℚ) false).1.out =
      .err "HTTP 401 para m (provider=None). Body: denied" ∧
    (hf_generate_via_endpoint (some "tok") (some "url") (.httpError 410 "gone")
        "p" 300 (0.9 : ℚ)).1 =
      (false, .err "HTTP 410: gone") :=
  ⟨rfl, rfl⟩

/-- Claim C4 (amended): both variants map 404 and 503 to status-specific
messages (503 explaining cold start), any unlisted status to the generic
HTTP-status message, and a timeout to a Timeout failure; but the
status-specific branches differ per variant — the Router variant gives 410
its distinct switch-API-base message while 401 and 403 fall to the generic
message, and the dedicated-endpoint variant gives 401 and 403 their
distinct messages while 410 falls to the generic message. -/
theorem claim_C4_classifier (model : String) (provider : Option String)
    (body : String) (prompt : String) (maxTokens : Int) (temperature : ℚ)
    (rft : Bool) (hfToken endpointUrl : String) (status : Nat)
    (hrouterOther : status ≠ 404 ∧ status ≠ 503 ∧ status ≠ 410)
    (hendpointOther : status ≠ 401 ∧ status ≠ 403 ∧ status ≠ 404 ∧ status ≠ 503)
    (htok : hfToken ≠ "") (hurl : endpointUrl ≠ "") :
    (call_router (.httpError 404 body) prompt model provider maxTokens temperature rft).1.out =
      .err ("404 Not Found para " ++ model ++ " (provider=" ++ pyStrOpt provider ++ ").") ∧
    (call_router (.httpError 503 body) prompt model provider maxTokens temperature rft).1.out =
      .err ("503 Servicio no disponible (cold start) para " ++ model ++
        " (provider=" ++ pyStrOpt provider ++ ").") ∧
    (call_router (.httpError 410 body) prompt model provider maxTokens temperature rft).1.out =
      .err ("410: api-inference.huggingface.co fue deprecado; usa router.huggingface.co. (Modelo=" ++
        model ++ ", provider=" ++ pyStrOpt provider ++ ")") ∧
    (call_router (.httpError 401 body) prompt model provider maxTokens temperature rft).1.out =
      .err ("HTTP 401 para " ++ model ++ " (provider=" ++ pyStrOpt provider ++ "). Body: " ++ body) ∧
    (call_router (.httpError 403 body) prompt model provider maxTokens temperature rft).1.out =
      .err ("HTTP 403 para " ++ model ++ " (provider=" ++ pyStrOpt provider ++ "). Body: " ++ body) ∧
    (call_router (.httpError status body) prompt model provider maxTokens temperature rft).1.out =
      .err ("HTTP " ++ toString status ++ " para " ++ model ++ " (provider=" ++
        pyStrOpt provider ++ "). Body: " ++ body) ∧
    (call_router .timeout prompt model provider maxTokens temperature rft).1.out =
      .err ("Timeout para " ++ model ++ " (provider=" ++ pyStrOpt provider ++ ").") ∧
    (hf_generate_via_endpoint (some hfToken) (some endpointUrl) (.httpError 401 body)
        prompt maxTokens temperature).1 =
      (false, .err "401 No autorizado: revisa tu HF_TOKEN o permisos.") ∧
    (hf_generate_via_endpoint (some hfToken) (some endpointUrl) (.httpError 403 body)
        prompt maxTokens temperature).1 =
      (false, .err "403 Prohibido: el endpoint o el modelo requieren permisos/licencia.") ∧
    (hf_generate_via_endpoint (some hfToken) (some endpointUrl) (.httpError 404 body)
        prompt maxTokens temperature).1 =
      (false, .err "404 No encontrado: revisa la URL HF_ENDPOINT_URL.") ∧
    (hf_generate_via_endpoint (some hfToken) (some endpointUrl) (.httpError 503 body)
        prompt maxTokens temperature).1 =
      (false, .err "503 Servicio no disponible: el endpoint está arrancando (cold start) o saturado.") ∧
    (hf_generate_via_endpoint (some hfToken) (some endpointUrl) (.httpError 410 body)
        prompt maxTokens temperature).1 =
      (false, .err ("HTTP 410: " ++ body)) ∧
    (hf_generate_via_endpoint (some hfToken) (some endpointUrl) (.httpError status body)
        prompt maxTokens temperature).1 =
      (false, .err ("HTTP " ++ toString status ++ ": " ++ body)) ∧
    (hf_generate_via_endpoint (some hfToken) (some endpointUrl) .timeout
        prompt maxTokens temperature).1 =
      (false, .err "⏰ Timeout: el endpoint tardó demasiado en responder.") := by
  obtain ⟨hr404, hr503, hr410⟩ := hrouterOther
  obtain ⟨he401, he403, he404, he503⟩ := hendpointOther
  have htokb : (hfToken != "") = true := by simpa using htok
  have hurlb : (endpointUrl != "") = true := by simpa using hurl
  refine ⟨rfl, rfl, rfl, rfl, rfl, ?_, rfl, ?_, ?_, ?_, ?_, ?_, ?_, ?_⟩
  · simp [call_router, routerHTTPErrorMsg,
      beq_false_of_ne hr404, beq_false_of_ne hr503, beq_false_of_ne hr410]
  all_goals
    simp [hf_generate_via_endpoint, pyTruthyStr, htokb, hurlb, endpointHTTPErrorMsg,
      beq_false_of_ne he401, beq_false_of_ne he403, beq_false_of_ne he404,
      beq_false_of_ne he503]
  all_goals rfl

/-- Witness for C4: an unlisted status (418) falls to the generic message
in both variants; the per-status hypotheses hold at 418. -/
theorem claim_C4_witness :
    ((418 : Nat) ≠ 404 ∧ (418 : Nat) ≠ 503 ∧ (418 : Nat) ≠ 410) ∧
    (call_router (.httpError 418 "teapot") "p" "m" (some "prov") 300 (0.9 : ℚ) false).1.out =
      .err ("HTTP " ++ toString (418 : Nat) ++ " para " ++ "m" ++ " (provider=" ++
        pyStrOpt (some "prov") ++ "). Body: " ++ "teapot") ∧
    (hf_generate_via_endpoint (some "tok") (some "url") (.httpError 418 "teapot")
        "p" 300 (0.9 : ℚ)).1 =
      (false, .err ("HTTP " ++ toString (418 : Nat) ++ ": " ++ "teapot")) := by
  have h := claim_C4_classifier "m" (some "prov") "teapot" "p" 300 (0.9 : ℚ) false
    "tok" "url" 418 (by decide) (by decide) (by decide) (by decide)
  exact ⟨by decide, h.2.2.2.2.2.1, h.2.2.2.2.2.2.2.2.2.2.2.2.1⟩

/-- Claim C5 (confirmed): under the explicit exception semantics, every
outcome of the HTTP call — any status, timeout, undecodable body or other
runtime exception — is caught by the clients' `except` chain and resolves
to the same Failure value the pure embedding denotes; no exception
propagates past `call_router` or `hf_generate_via_endpoint`. -/
theorem claim_C5_no_raise (outcome : HttpOutcome) (prompt model : String)
    (provider : Option String) (maxTokens : Int) (temperature : ℚ) (rft : Bool)
    (hfToken endpointUrl : Option String) :
    call_router_exc outcome model provider =
      Except.ok (call_router outcome prompt model provider maxTokens temperature rft).1 ∧
    hf_generate_via_endpoint_exc hfToken endpointUrl outcome =
      Except.ok (hf_generate_via_endpoint hfToken endpointUrl outcome
        prompt maxTokens temperature).1 := by
  constructor
  · cases outcome with
    | success data =>
      cases h : extract data <;>
        simp [call_router_exc, routerTryBody, tryExcept, call_router, h]
    | httpError status body =>
      simp [call_router_exc, routerTryBody, tryExcept, firstHandled, routerHandlers,
        call_router]
    | timeout =>
      simp [call_router_exc, routerTryBody, tryExcept, firstHandled, routerHandlers,
        call_router]
    | exception tb =>
      simp [call_router_exc, routerTryBody, tryExcept, firstHandled, routerHandlers,
        call_router, pyExcTraceback]
  · by_cases hc : (!pyTruthyStr hfToken || !pyTruthyStr endpointUrl) = true
    · simp [hf_generate_via_endpoint_exc, hf_generate_via_endpoint, hc]
    · cases outcome with
      | success data =>
        cases h : extract data <;>
          simp [hf_generate_via_endpoint_exc, endpointTryBody, tryExcept,
            hf_generate_via_endpoint, hc, h]
      | httpError status body =>
        simp [hf_generate_via_endpoint_exc, endpointTryBody, tryExcept, firstHandled,
          endpointHandlers, hf_generate_via_endpoint, hc]
      | timeout =>
        simp [hf_generate_via_endpoint_exc, endpointTryBody, tryExcept, firstHandled,
          endpointHandlers, hf_generate_via_endpoint, hc]
      | exception tb =>
        simp [hf_generate_via_endpoint_exc, endpointTryBody, tryExcept, firstHandled,
          endpointHandlers, hf_generate_via_endpoint, hc, pyExcTraceback]

/-- A string assembled as `a ++ m ++ b` contains `m` (left-associated). -/
theorem strContains_middle (a m b : String) : strContains (a ++ m ++ b) m = true :=
  strContains_of_eq _ a m b rfl

set_option maxRecDepth 8192

/-- Counterexample to claim C6 as stated: the Router variant's
unexpected-exception failure message is built solely from the traceback —
it embeds neither the failing model identifier nor any provider; and even
the classified messages render a missing provider as `None`, not as the
literal `auto` (`auto` only appears in the returned used-provider field). -/
theorem claim_C6_counterexample :
    (call_router (.exception "boom") "p" "HuggingFaceH4/zephyr-7b-beta" none
        300 (0.9 : ℚ) false).1.out = .err "Excepción: boom" ∧
    strContains "Excepción: boom" "HuggingFaceH4/zephyr-7b-beta" = false ∧
    strContains "Excepción: boom" "auto" = false ∧
    (call_router (.httpError 404 "") "p" "m" none 300 (0.9 : ℚ) false).1.out =
      .err "404 Not Found para m (provider=None)." ∧
    strContains "404 Not Found para m (provider=None)." "auto" = false :=
  ⟨rfl, by decide, by decide, rfl, by decide⟩

/-- Claim C6 (amended): in the Router variant, the HTTP-status, timeout and
unrecognized-shape failure messages embed the failing model identifier and
the provider as Python formats it (`None` when unset — the literal `auto`
goes only into the returned used-provider field); the unexpected-exception
message is built solely from the formatted traceback and embeds neither.
(The dedicated-endpoint variant has no model identifier in scope and its
messages embed neither model nor provider.) -/
theorem claim_C6_message_content (model : String) (provider : Option String)
    (status : Nat) (body tb : String) (data : Json) (prompt : String)
    (maxTokens : Int) (temperature : ℚ) (rft : Bool) :
    (call_router (.httpError status body) prompt model provider maxTokens temperature rft).1.out =
      .err (routerHTTPErrorMsg model provider status body) ∧
    strContains (routerHTTPErrorMsg model provider status body) model = true ∧
    strContains (routerHTTPErrorMsg model provider status body) (pyStrOpt provider) = true ∧
    (call_router .timeout prompt model provider maxTokens temperature rft).1.out =
      .err (routerTimeoutMsg model provider) ∧
    strContains (routerTimeoutMsg model provider) model = true ∧
    strContains (routerTimeoutMsg model provider) (pyStrOpt provider) = true ∧
    strContains (routerUnexpectedMsg model provider data) model = true ∧
    strContains (routerUnexpectedMsg model provider data) (pyStrOpt provider) = true ∧
    (call_router (.exception tb) prompt model provider maxTokens temperature rft).1.out =
      .err ("Excepción: " ++ strTake tb 800) ∧
    (call_router (.exception tb) prompt model provider maxTokens temperature rft).1.usedKey =
      providerOrAuto provider := by
  refine ⟨rfl, ?_, ?_, rfl, ?_, ?_, ?_, ?_, rfl, rfl⟩
  · unfold routerHTTPErrorMsg
    split
    · exact strContains_of_eq _ "404 Not Found para " model
        (" (provider=" ++ pyStrOpt provider ++ ").") (by simp [String.append_assoc])
    · split
      · exact strContains_of_eq _ "503 Servicio no disponible (cold start) para " model
          (" (provider=" ++ pyStrOpt provider ++ ").") (by simp [String.append_assoc])
      · split
        · exact strContains_of_eq _
            "410: api-inference.huggingface.co fue deprecado; usa router.huggingface.co. (Modelo="
            model (", provider=" ++ pyStrOpt provider ++ ")") (by simp [String.append_assoc])
        · exact strContains_of_eq _ ("HTTP " ++ toString status ++ " para ") model
            (" (provider=" ++ pyStrOpt provider ++ "). Body: " ++ body)
            (by simp [String.append_assoc])
  · unfold routerHTTPErrorMsg
    split
    · exact strContains_of_eq _ ("404 Not Found para " ++ model ++ " (provider=")
        (pyStrOpt provider) ")." (by simp [String.append_assoc])
    · split
      · exact strContains_of_eq _
          ("503 Servicio no disponible (cold start) para " ++ model ++ " (provider=")
          (pyStrOpt provider) ")." (by simp [String.append_assoc])
      · split
        · exact strContains_of_eq _
            ("410: api-inference.huggingface.co fue deprecado; usa router.huggingface.co. (Modelo=" ++
              model ++ ", provider=")
            (pyStrOpt provider) ")" (by simp [String.append_assoc])
        · exact strContains_of_eq _
            ("HTTP " ++ toString status ++ " para " ++ model ++ " (provider=")
            (pyStrOpt provider) ("). Body: " ++ body) (by simp [String.append_assoc])
  · exact strContains_of_eq _ "Timeout para " model
      (" (provider=" ++ pyStrOpt provider ++ ").") (by simp [routerTimeoutMsg, String.append_assoc])
  · exact strContains_of_eq _ ("Timeout para " ++ model ++ " (provider=")
      (pyStrOpt provider) ")." (by simp [routerTimeoutMsg, String.append_assoc])
  · exact strContains_of_eq _ "Respuesta inesperada del Router para " model
      (" (provider=" ++ pyStrOpt provider ++ "). Payload: " ++ strTake (pyRepr data) 400)
      (by simp [routerUnexpectedMsg, String.append_assoc])
  · exact strContains_of_eq _
      ("Respuesta inesperada del Router para " ++ model ++ " (provider=")
      (pyStrOpt provider) ("). Payload: " ++ strTake (pyRepr data) 400)
      (by simp [routerUnexpectedMsg, String.append_assoc])

/-- The top-level field names of a request body, in insertion order. -/
def topLevelKeys : Json → List String
  | .obj kvs => kvs.map (fun kv => kv.1)
  | _ => []

/-- The field names inside a request body's `parameters` mapping, in
insertion order. -/
def parametersKeys (j : Json) : List String :=
  match j with
  | .obj kvs =>
    match jsonGet kvs "parameters" with
    | some (.obj ps) => ps.map (fun kv => kv.1)
    | _ => []
  | _ => []

/-- Counterexample to claim C7 as stated: the dedicated-endpoint variant's
request body carries only `max_new_tokens` and `temperature` inside
`parameters` — `return_full_text` is absent (the source line is commented
out), so `parameters` does not contain the claimed minimum set. -/
theorem claim_C7_counterexample :
    parametersKeys (endpointPayload "p" 300 (0.9 : ℚ)) = ["max_new_tokens", "temperature"] ∧
    (parametersKeys (endpointPayload "p" 300 (0.9 : ℚ))).contains "return_full_text" = false ∧
    topLevelKeys (endpointPayload "p" 300 (0.9 : ℚ)) = ["inputs", "parameters"] :=
  ⟨rfl, by decide, rfl⟩

/-- Claim C7 (amended): every request body has top-level fields `inputs`
and `parameters`, plus a top-level `provider` exactly when the Router
variant is given a truthy provider; the Router variant's `parameters`
carry `max_new_tokens`, `temperature` and `return_full_text`, while both
dedicated-endpoint bodies carry only `max_new_tokens` and `temperature`
(the inline call appending the caller's non-default optional decoding
fields) — `return_full_text` is never sent by the endpoint variant. -/
theorem claim_C7_request_body (prompt : String) (maxTokens : Int)
    (temperature topP : ℚ) (topK : Int) (repetitionPenalty : ℚ) (rft : Bool)
    (provider : Option String)
    (hprov : pyTruthyStr provider = true) :
    topLevelKeys (routerPayload prompt maxTokens temperature rft none) =
      ["inputs", "parameters"] ∧
    topLevelKeys (routerPayload prompt maxTokens temperature rft provider) =
      ["inputs", "parameters", "provider"] ∧
    parametersKeys (routerPayload prompt maxTokens temperature rft provider) =
      ["max_new_tokens", "temperature", "return_full_text"] ∧
    parametersKeys (routerPayload prompt maxTokens temperature rft none) =
      ["max_new_tokens", "temperature", "return_full_text"] ∧
    topLevelKeys (endpointPayload prompt maxTokens temperature) =
      ["inputs", "parameters"] ∧
    parametersKeys (endpointPayload prompt maxTokens temperature) =
      ["max_new_tokens", "temperature"] ∧
    topLevelKeys (inlinePayload prompt maxTokens temperature topP topK repetitionPenalty) =
      ["inputs", "parameters"] ∧
    parametersKeys (inlinePayload prompt maxTokens temperature topP topK repetitionPenalty) =
      ["max_new_tokens", "temperature"] ++
        (if topP != (0.9 : ℚ) then ["top_p"] else []) ++
        (if topK != 50 then ["top_k"] else []) ++
        (if repetitionPenalty != (1.15 : ℚ) then ["repetition_penalty"] else []) := by
  refine ⟨rfl, ?_, ?_, rfl, rfl, rfl, ?_, ?_⟩
  · simp [routerPayload, hprov, topLevelKeys]
  · simp [routerPayload, hprov, parametersKeys, jsonGet]
  · cases h1 : topP != (0.9 : ℚ) <;> cases h2 : topK != 50 <;>
      cases h3 : repetitionPenalty != (1.15 : ℚ) <;>
        simp [inlinePayload, mergeExtraParams, dictUpdate, topLevelKeys, h1, h2, h3]
  · cases h1 : topP != (0.9 : ℚ) <;> cases h2 : topK != 50 <;>
      cases h3 : repetitionPenalty != (1.15 : ℚ) <;>
        simp [inlinePayload, mergeExtraParams, dictUpdate, parametersKeys, jsonGet, h1, h2, h3]

/-- Witness for C7 at a truthy provider and non-default sidebar values. -/
theorem claim_C7_witness :
    pyTruthyStr (some "together") = true ∧
    topLevelKeys (routerPayload "p" 300 (0.9 : ℚ) false (some "together")) =
      ["inputs", "parameters", "provider"] ∧
    parametersKeys (inlinePayload "p" 300 (0.9 : ℚ) (0.95 : ℚ) 50 (1.15 : ℚ)) =
      ["max_new_tokens", "temperature"] ++
        (if (0.95 : ℚ) != (0.9 : ℚ) then ["top_p"] else []) ++
        (if (50 : Int) != 50 then ["top_k"] else []) ++
        (if (1.15 : ℚ) != (1.15 : ℚ) then ["repetition_penalty"] else []) := by
  have h := claim_C7_request_body "p" 300 (0.9 : ℚ) (0.95 : ℚ) 50 (1.15 : ℚ) false
    (some "together") (by decide)
  exact ⟨by decide, h.2.1, h.2.2.2.2.2.2.2⟩

/-- Claim C8 (confirmed): with the access token missing (or, in the
dedicated-endpoint variant, the endpoint URL missing), the run reports a
configuration failure and performs no HTTP request:
`hf_generate_via_endpoint` returns its configuration-incomplete failure
with an empty request list, and the falcon button flow stops at a guard
with an empty attempt trace — specifically the token guard when the topic
is valid. -/
theorem claim_C8_config_short_circuit (hfToken endpointUrl : Option String)
    (outcome : HttpOutcome) (prompt : String) (maxTokens : Int) (temperature : ℚ)
    (tema : String) (dfRows : Option Nat)
    (oracle : String → Option String → HttpOutcome) :
    (pyTruthyStr hfToken = false →
      hf_generate_via_endpoint hfToken endpointUrl outcome prompt maxTokens temperature =
        ((false, .err configIncompleteMsg), [])) ∧
    (pyTruthyStr endpointUrl = false →
      hf_generate_via_endpoint hfToken endpointUrl outcome prompt maxTokens temperature =
        ((false, .err configIncompleteMsg), [])) ∧
    (pyTruthyStr hfToken = false →
      (generateButtonFlow tema hfToken dfRows oracle prompt).2 = [] ∧
      ∃ m, (generateButtonFlow tema hfToken dfRows oracle prompt).1 = .errorMsg m) ∧
    (pyTruthyStr hfToken = false → (tema == "" || (pyStrip tema).length < 3) = false →
      generateButtonFlow tema hfToken dfRows oracle prompt =
        (.errorMsg "El token de Hugging Face (HF_TOKEN) es necesario.", [])) := by
  refine ⟨?_, ?_, ?_, ?_⟩
  · intro h
    simp [hf_generate_via_endpoint, h]
  · intro h
    simp [hf_generate_via_endpoint, h]
  · intro h
    by_cases ht : (tema == "" || (pyStrip tema).length < 3) = true
    · refine ⟨?_, "Por favor, ingresa un tema válido para la generación.", ?_⟩ <;>
        simp [generateButtonFlow, ht]
    · rw [Bool.not_eq_true] at ht
      refine ⟨?_, "El token de Hugging Face (HF_TOKEN) es necesario.", ?_⟩ <;>
        simp [generateButtonFlow, ht, h]
  · intro h ht
    simp [generateButtonFlow, ht, h]

/-- Witness for C8: token absent, valid topic — the endpoint client posts
nothing and the falcon flow stops at the token guard. -/
theorem claim_C8_witness :
    pyTruthyStr none = false ∧
    hf_generate_via_endpoint none (some "url") .timeout "p" 300 (0.9 : ℚ) =
      ((false, .err configIncompleteMsg), []) ∧
    generateButtonFlow "otoño" none (some 5) (fun _ _ => .timeout) "p" =
      (.errorMsg "El token de Hugging Face (HF_TOKEN) es necesario.", []) := by
  have h := claim_C8_config_short_circuit none (some "url") .timeout "p" 300 (0.9 : ℚ)
    "otoño" (some 5) (fun _ _ => .timeout)
  exact ⟨rfl, h.1 rfl, h.2.2.2 rfl (by decide)⟩

/-- Python truthiness of a `dict.get` result: a missing key is falsy. -/
def pyTruthyOptJson : Option Json → Bool
  | none => false
  | some j => pyTruthyJson j

theorem pyOrJson_eq (a b : Option Json) :
    pyOrJson a b = if pyTruthyOptJson a then a else b := by
  cases a with
  | none => simp [pyOrJson, pyTruthyOptJson]
  | some j => simp [pyOrJson, pyTruthyOptJson]

/-- Counterexample to claim C10 as stated: when all three fields are
present but empty, Python's `or` chain returns the last operand — the
empty `output_text` — which is not `None`, so the inline call reports
success with empty text instead of a failed, unrecognized response. -/
theorem claim_C10_counterexample :
    inlineExtract (.arr [.obj
      [("generated_text", .str ""), ("text", .str ""), ("output_text", .str "")]]) =
      (true, .text (.str "")) := rfl

/-- Claim C10 (amended): the inline endpoint call treats a falsy (e.g.
empty) `generated_text` as absent and falls through to `text`, then
`output_text`; when `generated_text` and `text` are falsy or missing, the
attempt is reported as a failed, unrecognized response exactly when
`output_text` is missing (or null) — if `output_text` is present with a
non-null falsy value such as `""`, the call reports success with that
empty text.  The key-membership test of `hf_generate_via_endpoint` and
`call_router`, by contrast, returns a present-but-empty `generated_text`
as a success. -/
theorem claim_C10_inline_or_chain (kvs : List (String × Json))
    (tail : List Json) (v : Json) (prompt : String) (model : String)
    (provider : Option String) (maxTokens : Int) (temperature : ℚ) (rft : Bool) :
    (jsonGet kvs "generated_text" = some (.str "") →
      jsonGet kvs "text" = some v → pyTruthyJson v = true →
      inlineExtract (.arr (.obj kvs :: tail)) = (true, .text v)) ∧
    (pyTruthyOptJson (jsonGet kvs "generated_text") = false →
      pyTruthyOptJson (jsonGet kvs "text") = false →
      isNotNone (jsonGet kvs "output_text") = false →
      inlineExtract (.arr (.obj kvs :: tail)) =
        (false, .err (endpointUnexpectedMsg (.arr (.obj kvs :: tail))))) ∧
    (pyTruthyOptJson (jsonGet kvs "generated_text") = false →
      pyTruthyOptJson (jsonGet kvs "text") = false →
      pyTruthyOptJson (jsonGet kvs "output_text") = false →
      isNotNone (jsonGet kvs "output_text") = true →
      inlineExtract (.arr (.obj kvs :: tail)) =
        (true, .text ((jsonGet kvs "output_text").getD .null))) ∧
    extract (.arr [.obj [("generated_text", .str "")]]) = some (.str "") ∧
    (call_router (.success (.arr [.obj [("generated_text", .str "")]]))
        prompt model provider maxTokens temperature rft).1.ok = true ∧
    (hf_generate_via_endpoint (some "t") (some "u")
        (.success (.arr [.obj [("generated_text", .str "")]]))
        prompt maxTokens temperature).1 = (true, .text (.str "")) := by
  refine ⟨?_, ?_, ?_, rfl, rfl, ?_⟩
  · intro hg ht hv
    cases v <;>
      simp_all [inlineExtract, pyOrJson, pyTruthyJson, isNotNone, hg, ht]
  · intro hg ht ho
    rw [inlineExtract]
    simp only [pyOrJson_eq, hg, ht, if_false, Bool.false_eq_true]
    rw [if_neg (by simp [ho])]
  · intro hg ht ho hn
    rw [inlineExtract]
    simp only [pyOrJson_eq, hg, ht, if_false, Bool.false_eq_true]
    rw [if_pos (by simp [hn])]
  · rfl

/-- Witness for C10: an empty `generated_text` falls through to a
non-empty `text`. -/
theorem claim_C10_witness :
    jsonGet [("generated_text", Json.str ""), ("text", Json.str "hola")]
      "generated_text" = some (.str "") ∧
    inlineExtract (.arr [.obj [("generated_text", .str ""), ("text", .str "hola")]]) =
      (true, .text (.str "hola")) :=
  ⟨rfl,
   (claim_C10_inline_or_chain [("generated_text", .str ""), ("text", .str "hola")]
     [] (.str "hola") "p" "m" none 300 (0.9 : ℚ) false).1 rfl rfl rfl⟩

end Poemas
